import Mathlib

/-!
Verification of the config synchronization and cache-invalidation core of the
signage client (src/client/testclient.py): content hashing, media resolution,
cache persistence and fallback.  Python values flowing through this core are
JSON documents; we embed them as the nested inductive `JValue`.  Filesystem and
network effects are embedded by explicit state passing: the media directory is
a list of file names, the cache is a `CacheState`, download success is an
oracle `ok : String → Bool`, and the HTTP fetch outcome is a `FetchOutcome`.
-/

/-- A JSON document as produced by `resp.json()` / `json.load`: the opaque
ConfigurationDocument of the spec.  Objects are key/value lists in insertion
order (Python 3.7+ dict semantics); Python dicts cannot hold duplicate keys,
which is captured by the well-formedness predicate `wfJ` below. -/
inductive JValue where
  | null : JValue
  | bool (b : Bool) : JValue
  | num (n : Int) : JValue
  | str (s : String) : JValue
  | arr (xs : List JValue) : JValue
  | obj (kvs : List (String × JValue)) : JValue

/-- Python truthiness of a JSON value, as used by `if config:` and
`if logo_url:` in testclient.py. -/
def isTruthy : JValue → Bool
  | .null => false
  | .bool b => b
  | .num n => n != 0
  | .str s => s ≠ ""
  | .arr xs => !xs.isEmpty
  | .obj kvs => !kvs.isEmpty

/-- `d.get(k)` on the underlying key/value list: first binding of `k`. -/
def lookupKV (kvs : List (String × JValue)) (k : String) : Option JValue :=
  match kvs with
  | [] => none
  | (k₂, v) :: rest => if k₂ = k then some v else lookupKV rest k

/-- `d[k] = v` on the key/value list: Python dict assignment updates the
existing binding in place (keeping its position) or appends a new one. -/
def setKV : List (String × JValue) → String → JValue → List (String × JValue)
  | [], k, v => [(k, v)]
  | (k₃, v₃) :: rest, k, v =>
      if k₃ = k then (k, v) :: rest else (k₃, v₃) :: setKV rest k v

/-- `config.get(k)`: lookup on an object, embedded as `none` elsewhere. -/
def dictGet (cfg : JValue) (k : String) : Option JValue :=
  match cfg with
  | .obj kvs => lookupKV kvs k
  | _ => none

/-! ## Content hashing (`hash_config`)

`hash_config(config)` is
`hashlib.sha256(json.dumps(config, sort_keys=True).encode("utf-8")).hexdigest()`.
We embed the canonical serialization `json.dumps(config, sort_keys=True)`
faithfully in its structure: default separators, and the items of every object
sorted by key (Python sorts `str` by code points, which is the lexicographic
order on the underlying character lists).  SHA-256 is a fixed deterministic
function of the serialization, so we model the digest by the canonical
serialization itself (a collision-free abstraction): two digests are equal
exactly when the canonical serializations are. -/

/-- Key order used by `json.dumps(…, sort_keys=True)`, lifted to pairs whose
first component is the key: code-point lexicographic order. -/
def keyLE (a b : String × String) : Prop := a.1.data ≤ b.1.data

instance : DecidableRel keyLE := fun a b => by
  unfold keyLE
  infer_instance

instance : IsTotal (String × String) keyLE :=
  ⟨fun a b => le_total a.1.data b.1.data⟩

instance : IsTrans (String × String) keyLE :=
  ⟨fun _ _ _ h₁ h₂ => le_trans h₁ h₂⟩

/-- Sorting the rendered items of an object by key. -/
def sortPairs (l : List (String × String)) : List (String × String) :=
  List.insertionSort keyLE l

mutual

/-- `json.dumps(v, sort_keys=True)` (string escaping elided: it is a fixed
deterministic per-string function, irrelevant to key ordering). -/
def serialize : JValue → String
  | .null => "null"
  | .bool true => "true"
  | .bool false => "false"
  | .num n => toString n
  | .str s => "\"" ++ s ++ "\""
  | .arr xs => "[" ++ String.intercalate ", " (serializeList xs) ++ "]"
  | .obj kvs =>
      "\x7b" ++ String.intercalate ", "
        ((sortPairs (serializeKVs kvs)).map
          (fun kv => "\"" ++ kv.1 ++ "\": " ++ kv.2)) ++ "\x7d"

def serializeList : List JValue → List String
  | [] => []
  | x :: xs => serialize x :: serializeList xs

def serializeKVs : List (String × JValue) → List (String × String)
  | [] => []
  | (k, v) :: kvs => (k, serialize v) :: serializeKVs kvs

end

/-- testclient.py line 34: the ContentHash of a document.  The SHA-256 digest
is modeled by the canonical serialization it is computed from (see above). -/
def hash_config (config : JValue) : String := serialize config

/-! ## ConfigFetcher (`get_config_from_server`) -/

/-- Outcome of `requests.get(url, timeout=5)` as seen by the client:
either an exception (transport failure, timeout, redirect loop), or a
response with a status code and a body; `body = none` embeds a body that
`resp.json()` fails to parse. -/
inductive FetchOutcome where
  | exn : FetchOutcome
  | resp (status : Nat) (body : Option JValue) : FetchOutcome

/-- testclient.py lines 24-32.  `resp.raise_for_status()` raises exactly for
4xx and 5xx status codes; every exception is caught and turned into `None`
(the spec's Unavailable). -/
def get_config_from_server : FetchOutcome → Option JValue
  | .exn => none
  | .resp status body => if 400 ≤ status ∧ status < 600 then none else body

/-! ## Media resolution (`ensure_media_files`, `download_media`) -/

/-- The `MEDIA_DIR` constant (CACHE_DIR / "media"). -/
def MEDIA_DIR : String := "cache/media"

/-- Split a character list at every slash (the segments of a POSIX path). -/
def splitSlash : List Char → List (List Char)
  | [] => [[]]
  | c :: rest =>
      match splitSlash rest with
      | [] => [[]]
      | seg :: segs =>
          if c = '/' then [] :: seg :: segs else (c :: seg) :: segs

/-- `Path(url).name`: the last nonempty slash-separated segment. -/
def pathName (url : String) : String :=
  String.mk (((splitSlash url.data).filter (fun s => s ≠ [])).getLastD [])

/-- `str(MEDIA_DIR / name)`. -/
def localPath (name : String) : String := MEDIA_DIR ++ "/" ++ name

/-- `media_map[url] = fname` (Python dict assignment on string keys):
update the existing binding in place or append a new one. -/
def dictInsert : List (String × String) → String → String → List (String × String)
  | [], k, v => [(k, v)]
  | (k₃, v₃) :: rest, k, v =>
      if k₃ = k then (k, v) :: rest else (k₃, v₃) :: dictInsert rest k v

/-- The `media_map` dict built up by `ensure_media_files`, from the
url/filename pairs encountered in program order. -/
def buildMap (ps : List (String × String)) : List (String × String) :=
  ps.foldl (fun m p => dictInsert m p.1 p.2) []

/-- One media-bearing top-level field (`logo` / `background_image`):
if the field holds a truthy string, record the url/filename pair and rewrite
the field to the local path (testclient.py lines 70-79). -/
def rewriteField (kvs : List (String × JValue)) (field : String) :
    List (String × JValue) × List (String × String) :=
  match lookupKV kvs field with
  | some (.str u) =>
      if u = "" then (kvs, [])
      else (setKV kvs field (.str (localPath (pathName u))), [(u, pathName u)])
  | _ => (kvs, [])

/-- `conf.get("type") in ["image", "video"]`. -/
def typeIsMedia (skvs : List (String × JValue)) : Bool :=
  match lookupKV skvs "type" with
  | some (.str t) => t == "image" || t == "video"
  | _ => false

/-- One slide side dict (testclient.py lines 83-88): when the type is image
or video and the source is a truthy string, record the pair and rewrite
`source` to the local path. -/
def rewriteSide (skvs : List (String × JValue)) :
    List (String × JValue) × List (String × String) :=
  if typeIsMedia skvs then
    match lookupKV skvs "source" with
    | some (.str u) =>
        if u = "" then (skvs, [])
        else
          (setKV skvs "source" (.str (localPath (pathName u))), [(u, pathName u)])
    | _ => (skvs, [])
  else (skvs, [])

/-- `slide.get(side, {})` followed by the side rewrite: a missing side is a
fresh `{}` whose mutation is dropped, so only a present object side is
rewritten. -/
def rewriteSlideSide (slide : List (String × JValue)) (side : String) :
    List (String × JValue) × List (String × String) :=
  match lookupKV slide side with
  | some (.obj skvs) =>
      let r := rewriteSide skvs
      (setKV slide side (.obj r.1), r.2)
  | _ => (slide, [])

/-- One slide: sides are visited in the order `["left", "right"]`. -/
def rewriteSlide (slide : JValue) : JValue × List (String × String) :=
  match slide with
  | .obj kvs =>
      let l := rewriteSlideSide kvs "left"
      let r := rewriteSlideSide l.1 "right"
      (.obj r.1, l.2 ++ r.2)
  | v => (v, [])

/-- The collect-and-rewrite phase of `ensure_media_files` (lines 68-88):
logo, then background image, then each slide's sides, mutating the document
in place and collecting the url/filename pairs in program order. -/
def collectRewrite (cfg : JValue) : JValue × List (String × String) :=
  match cfg with
  | .obj kvs =>
      let l := rewriteField kvs "logo"
      let b := rewriteField l.1 "background_image"
      let s :=
        match lookupKV b.1 "slides" with
        | some (.arr xs) =>
            let rs := xs.map rewriteSlide
            (setKV b.1 "slides" (.arr (rs.map Prod.fst)),
             (rs.map Prod.snd).flatten)
        | _ => (b.1, [])
      (.obj s.1, l.2 ++ b.2 ++ s.2)
  | v => (v, [])

/-- testclient.py lines 55-65: `download_media` fetches `url` and writes the
file; every exception is caught inside it (it prints and falls through), so
it never raises to its caller and always returns the local path.  `ok` tells
whether the download succeeded; only a successful download creates the file. -/
def download_media (ok : Bool) (fname : String) (files : List String) :
    List String × String :=
  (if ok then files ++ [fname] else files, localPath fname)

/-- The download phase (lines 90-93): for each `media_map` entry in order,
skip it if the local file already exists, otherwise attempt the download.
Returns the list of urls actually requested and the resulting media dir. -/
def downloadLoop (ok : String → Bool) :
    List (String × String) → List String → List String × List String
  | [], files => ([], files)
  | (url, fname) :: rest, files =>
      if fname ∈ files then downloadLoop ok rest files
      else
        let d := download_media (ok url) fname files
        let r := downloadLoop ok rest d.1
        (url :: r.1, r.2)

/-- testclient.py lines 67-94: returns the rewritten document, the list of
urls downloaded, and the new contents of the media directory. -/
def ensure_media_files (cfg : JValue) (ok : String → Bool)
    (files : List String) : JValue × List String × List String :=
  let c := collectRewrite cfg
  let d := downloadLoop ok (buildMap c.2) files
  (c.1, d.1, d.2)

/-! ## ConfigSyncCache (cache files and `main`'s reconcile logic) -/

/-- The on-disk state owned by the sync core: `config.json` (none = absent),
`config_hash.txt` (none = absent), and the media directory. -/
structure CacheState where
  cacheFile : Option JValue
  hashFile : Option String
  mediaFiles : List String

/-- Where an I/O error strikes during `save_config_cache`: nowhere, or while
writing `config_hash.txt` (after `config.json` was fully written). -/
inductive WriteFault where
  | ok : WriteFault
  | hashWriteFails : WriteFault

/-- testclient.py lines 37-41: write `config.json`, then write
`config_hash.txt` with `hash_config(config)`.  The two writes are sequential
`with open(...)` blocks with no temp-file-and-rename, so an I/O error raised
by the second write leaves the document updated and the hash stale; the
returned Bool reports whether an exception escaped. -/
def save_config_cache (config : JValue) (f : WriteFault) (st : CacheState) :
    CacheState × Bool :=
  match f with
  | .ok =>
      ({ st with cacheFile := some config,
                 hashFile := some (hash_config config) }, false)
  | .hashWriteFails => ({ st with cacheFile := some config }, true)

/-- testclient.py lines 43-47. -/
def load_config_cache (st : CacheState) : Option JValue := st.cacheFile

/-- testclient.py lines 49-53. -/
def load_config_hash (st : CacheState) : Option String := st.hashFile

/-- The diagnostic printed before `sys.exit(1)`. -/
def noCacheMsg : String := "No cached config available. Exiting."

/-- Result of the reconcile step of `main`: either the process terminates
(`sys.exit`) with an exit code and the diagnostic printed before it, or
execution proceeds to settings extraction with `config` (which the
hash-unchanged branch can leave as `None`). -/
inductive Outcome where
  | fatal (exitCode : Nat) (msg : String) : Outcome
  | proceed (config : Option JValue) : Outcome

/-- testclient.py lines 460-465: the `else` branch of `main` (fetch failed or
fetched value falsy): fall back to the cached document; `if not config:`
exits with status 1 when it is absent (or falsy). -/
def fallbackToCache (st : CacheState) : Outcome × CacheState × List String :=
  match load_config_cache st with
  | some config =>
      if isTruthy config then (Outcome.proceed (some config), st, [])
      else (Outcome.fatal 1 noCacheMsg, st, [])
  | none => (Outcome.fatal 1 noCacheMsg, st, [])

/-- testclient.py lines 446-465: the config-sync portion of `main`, from the
fetched value to the `config` handed to settings extraction.  Returns the
outcome, the cache state after the run, and the urls downloaded. -/
def reconcile (fetched : Option JValue) (ok : String → Bool) (st : CacheState) :
    Outcome × CacheState × List String :=
  match fetched with
  | some config =>
      if isTruthy config then
        if some (hash_config config) ≠ st.hashFile then
          let e := ensure_media_files config ok st.mediaFiles
          let st₂ := (save_config_cache e.1 WriteFault.ok
            { st with mediaFiles := e.2.2 }).1
          (Outcome.proceed (some e.1), st₂, e.2.1)
        else
          (Outcome.proceed (load_config_cache st), st, [])
      else fallbackToCache st
  | none => fallbackToCache st

/-- testclient.py lines 468-476: the settings dict built after reconcile via
`config.get(...)`; when `config` is `None` this raises AttributeError, which
nothing in `main` catches. -/
def extract_settings : Option JValue → Except String (List (String × Option JValue))
  | none => Except.error "AttributeError: NoneType object has no attribute get"
  | some config =>
      Except.ok
        [("display_name", dictGet config "display_name"),
         ("background_image", dictGet config "background_image"),
         ("background_color", dictGet config "background_color"),
         ("logo", dictGet config "logo"),
         ("logo_text", dictGet config "logo_text"),
         ("clock", dictGet config "clock"),
         ("burnin", dictGet config "burnin")]

/-! ## Key-order-insensitive deep equality

The spec's comparison on ConfigurationDocuments: same keys and values in any
key order, recursively; arrays compare pointwise in order, scalars by value. -/

/-- Extract the first binding of `k` and the remainder of the list. -/
def lookupRemove (k : String) :
    List (String × JValue) → Option (JValue × List (String × JValue))
  | [] => none
  | (k₂, v₂) :: rest =>
      if k₂ = k then some (v₂, rest)
      else match lookupRemove k rest with
        | some (v, l) => some (v, (k₂, v₂) :: l)
        | none => none

mutual

/-- Deep equality of JSON values, insensitive to object key order. -/
def jequiv : JValue → JValue → Bool
  | .null, .null => true
  | .bool a, .bool b => a == b
  | .num a, .num b => a == b
  | .str a, .str b => a == b
  | .arr xs, .arr ys => jequivList xs ys
  | .obj kvs, .obj kvs₂ => jequivObj kvs kvs₂
  | _, _ => false

def jequivList : List JValue → List JValue → Bool
  | [], [] => true
  | x :: xs, y :: ys => jequiv x y && jequivList xs ys
  | _, _ => false

def jequivObj : List (String × JValue) → List (String × JValue) → Bool
  | [], kvs₂ => kvs₂.isEmpty
  | (k, v) :: kvs, kvs₂ =>
      match lookupRemove k kvs₂ with
      | some (v₂, rest) => jequiv v v₂ && jequivObj kvs rest
      | none => false

end

mutual

/-- Well-formedness of a document as a Python value: every object has
duplicate-free keys (guaranteed for any value built by `json.loads` /
`resp.json()`, since Python dicts cannot hold duplicate keys). -/
def wfJ : JValue → Bool
  | .arr xs => wfList xs
  | .obj kvs => decide ((kvs.map Prod.fst).Nodup) && wfKVs kvs
  | _ => true

def wfList : List JValue → Bool
  | [] => true
  | x :: xs => wfJ x && wfList xs

def wfKVs : List (String × JValue) → Bool
  | [] => true
  | (_, v) :: kvs => wfJ v && wfKVs kvs

end

/-- Strict key order on rendered object items (used to show that sorting a
duplicate-free item list is unique). -/
def keyLT (a b : String × String) : Prop := a.1.data < b.1.data

instance : IsAntisymm (String × String) keyLT :=
  ⟨fun _ _ h₁ h₂ => absurd h₁ (lt_asymm h₂)⟩

/-! ## Media well-formedness

The shapes on which `ensure_media_files` runs without a Python type error:
media fields, when present and truthy, hold strings; `slides`, when present,
is a list of dicts whose `left`/`right` entries, when present, are dicts.
(Any other shape makes the source raise inside `Path(...)` or `.get(...)`.) -/

/-- A field value on which `if url:` then `Path(url)` is safe: absent, falsy,
or a string. -/
def isStrOpt : Option JValue → Bool
  | some v => !isTruthy v || (match v with | .str _ => true | _ => false)
  | none => true

def sideWF (skvs : List (String × JValue)) : Bool :=
  !typeIsMedia skvs || isStrOpt (lookupKV skvs "source")

def slideWF : JValue → Bool
  | .obj kvs =>
      (match lookupKV kvs "left" with
       | some (.obj s) => sideWF s
       | some _ => false
       | none => true) &&
      (match lookupKV kvs "right" with
       | some (.obj s) => sideWF s
       | some _ => false
       | none => true)
  | _ => false

def mediaWF : JValue → Bool
  | .obj kvs =>
      isStrOpt (lookupKV kvs "logo") &&
      isStrOpt (lookupKV kvs "background_image") &&
      (match lookupKV kvs "slides" with
       | some (.arr xs) => xs.all slideWF
       | some _ => false
       | none => true)
  | _ => false

/-! ## Lemmas for the canonical serialization -/

/-- `serializeKVs` renders each item, keeping keys and order. -/
theorem serializeKVs_eq_map (l : List (String × JValue)) :
    serializeKVs l = l.map (fun kv => (kv.1, serialize kv.2)) := by
  induction l with
  | nil => rfl
  | cons kv rest ih =>
      cases kv
      simp [serializeKVs, ih]

/-- `lookupRemove` extracts one binding: the original list is a permutation
of that binding consed onto the remainder. -/
theorem lookupRemove_perm (k : String) :
    ∀ (l : List (String × JValue)) (v : JValue) (rest : List (String × JValue)),
      lookupRemove k l = some (v, rest) → l.Perm ((k, v) :: rest) := by
  intro l
  induction l with
  | nil =>
      intro v rest h
      simp [lookupRemove] at h
  | cons kv tail ih =>
      intro v rest h
      cases kv with
      | mk k₂ v₂ =>
        by_cases hk : k₂ = k
        · subst hk
          simp [lookupRemove] at h
          rw [h.1, h.2]
        · simp [lookupRemove, hk] at h
          cases hlr : lookupRemove k tail with
          | none =>
              rw [hlr] at h
              simp at h
          | some p =>
              cases p with
              | mk v₃ l₃ =>
                rw [hlr] at h
                simp at h
                obtain ⟨h₁, h₂⟩ := h
                subst_vars
                exact ((ih _ _ hlr).cons _).trans (List.Perm.swap _ _ _)

/-- A `keyLE`-sorted item list with duplicate-free keys is strictly sorted. -/
theorem sorted_keyLT_of_nodup {l : List (String × String)}
    (hs : List.Sorted keyLE l) (hn : (l.map Prod.fst).Nodup) :
    List.Sorted keyLT l := by
  have hp : List.Pairwise (fun a b : String × String => a.1 ≠ b.1) l := by
    rw [List.Nodup, List.pairwise_map] at hn
    exact hn
  refine (hs.and hp).imp ?_
  intro a b hab
  have hne : a.1.data ≠ b.1.data := fun hd => hab.2 (String.ext hd)
  exact lt_of_le_of_ne hab.1 hne

/-- Sorting by key is unique on permutation-equal item lists with
duplicate-free keys. -/
theorem sortPairs_eq_of_perm {l₁ l₂ : List (String × String)}
    (h : l₁.Perm l₂) (hn : (l₁.map Prod.fst).Nodup) :
    sortPairs l₁ = sortPairs l₂ := by
  have p₁ : (sortPairs l₁).Perm l₁ := List.perm_insertionSort keyLE l₁
  have p₂ : (sortPairs l₂).Perm l₂ := List.perm_insertionSort keyLE l₂
  have hp : (sortPairs l₁).Perm (sortPairs l₂) := (p₁.trans h).trans p₂.symm
  have hs₁ : List.Sorted keyLE (sortPairs l₁) := List.sorted_insertionSort keyLE l₁
  have hs₂ : List.Sorted keyLE (sortPairs l₂) := List.sorted_insertionSort keyLE l₂
  have hn₁ : ((sortPairs l₁).map Prod.fst).Nodup :=
    ((p₁.map Prod.fst).nodup_iff).mpr hn
  have hn₂ : ((sortPairs l₂).map Prod.fst).Nodup :=
    ((hp.map Prod.fst).nodup_iff).mp hn₁
  exact List.eq_of_perm_of_sorted hp
    (sorted_keyLT_of_nodup hs₁ hn₁) (sorted_keyLT_of_nodup hs₂ hn₂)

/-- The keys of the rendered items are the keys of the object. -/
theorem serializeKVs_fst (l : List (String × JValue)) :
    (serializeKVs l).map Prod.fst = l.map Prod.fst := by
  rw [serializeKVs_eq_map, List.map_map]
  rfl

/-- Key-order-insensitively equal documents (the first one well-formed, as
every Python dict is) have equal canonical serializations. -/
theorem serialize_eq_of_jequiv (a b : JValue)
    (hw : wfJ a = true) (he : jequiv a b = true) : serialize a = serialize b := by
  revert hw he
  refine jequiv.induct
    (fun a b => wfJ a = true → jequiv a b = true → serialize a = serialize b)
    (fun kvs kvs₂ => wfKVs kvs = true → jequivObj kvs kvs₂ = true →
      (serializeKVs kvs₂).Perm (serializeKVs kvs))
    (fun xs ys => wfList xs = true → jequivList xs ys = true →
      serializeList xs = serializeList ys)
    ?_ ?_ ?_ ?_ ?_ ?_ ?_ ?_ ?_ ?_ ?_ ?_ ?_ a b
  · intro _ _
    rfl
  · intro x y _ he
    simp [jequiv] at he
    rw [he]
  · intro x y _ he
    simp [jequiv] at he
    rw [he]
  · intro x y _ he
    simp [jequiv] at he
    rw [he]
  · intro xs ys ih hw he
    simp [wfJ] at hw
    simp [jequiv] at he
    simp [serialize, ih hw he]
  · intro kvs kvs₂ ih hw he
    simp [wfJ] at hw
    simp [jequiv] at he
    have hperm := ih hw.2 he
    have hn : ((serializeKVs kvs).map Prod.fst).Nodup := by
      rw [serializeKVs_fst]
      exact hw.1
    simp [serialize, sortPairs_eq_of_perm hperm.symm hn]
  · intro t x c₁ c₂ c₃ c₄ c₅ c₆ hw he
    exfalso
    cases t <;> cases x <;> simp_all [jequiv]
  · intro _ _
    rfl
  · intro x xs y ys ih₁ ih₂ hw he
    simp [wfList] at hw
    simp [jequivList] at he
    simp [serializeList, ih₁ hw.1 he.1, ih₂ hw.2 he.2]
  · intro t x c₁ c₂ hw he
    exfalso
    cases t <;> cases x <;> simp_all [jequivList]
  · intro kvs₂ _ he
    simp [jequivObj, List.isEmpty_iff] at he
    rw [he]
  · intro k v kvs kvs₂ v₂ rest hlr ih₁ ih₂ hw he
    simp [wfKVs] at hw
    simp [jequivObj, hlr] at he
    have hv : serialize v = serialize v₂ := ih₁ hw.1 he.1
    have hrest := ih₂ hw.2 he.2
    have hp : kvs₂.Perm ((k, v₂) :: rest) := lookupRemove_perm k kvs₂ v₂ rest hlr
    have s₁ : (serializeKVs kvs₂).Perm ((k, serialize v₂) :: serializeKVs rest) := by
      have hm := hp.map (fun kv : String × JValue => (kv.1, serialize kv.2))
      simpa [serializeKVs_eq_map] using hm
    have s₂ : ((k, serialize v₂) :: serializeKVs rest).Perm (serializeKVs ((k, v) :: kvs)) := by
      rw [← hv]
      exact hrest.cons (k, serialize v)
    exact s₁.trans s₂
  · intro k v kvs kvs₂ hlr hw he
    exfalso
    simp [jequivObj, hlr] at he

/-! ## Lemmas for media resolution -/

/-- A key present after `dictInsert` was present before or is the inserted
key. -/
theorem dictInsert_mem_keys (k v a : String) :
    ∀ (m : List (String × String)), a ∈ (dictInsert m k v).map Prod.fst →
      a ∈ m.map Prod.fst ∨ a = k := by
  intro m
  induction m with
  | nil =>
      intro h
      simp [dictInsert] at h
      exact Or.inr h
  | cons p rest ih =>
      intro h
      obtain ⟨k₃, v₃⟩ := p
      by_cases hk : k₃ = k
      · simp only [dictInsert, hk, if_true] at h
        rcases List.mem_cons.mp h with he | hm
        · exact Or.inr he
        · exact Or.inl (List.mem_cons_of_mem _ hm)
      · simp only [dictInsert, hk, if_false, List.map_cons] at h
        rcases List.mem_cons.mp h with he | hm
        · exact Or.inl (by simp [he])
        · rcases ih hm with hl | hr
          · exact Or.inl (List.mem_cons_of_mem _ hl)
          · exact Or.inr hr

/-- `dictInsert` keeps the key list duplicate-free. -/
theorem dictInsert_keys_nodup (k v : String) :
    ∀ (m : List (String × String)), (m.map Prod.fst).Nodup →
      ((dictInsert m k v).map Prod.fst).Nodup := by
  intro m
  induction m with
  | nil =>
      intro _
      simp [dictInsert]
  | cons p rest ih =>
      intro h
      obtain ⟨k₃, v₃⟩ := p
      rw [List.map_cons, List.nodup_cons] at h
      by_cases hk : k₃ = k
      · subst hk
        have he : dictInsert ((k₃, v₃) :: rest) k₃ v = (k₃, v) :: rest := by
          simp [dictInsert]
        rw [he, List.map_cons, List.nodup_cons]
        exact h
      · simp only [dictInsert, hk, if_false, List.map_cons, List.nodup_cons]
        refine ⟨?_, ih h.2⟩
        intro hm
        rcases dictInsert_mem_keys k v k₃ rest hm with hl | hr
        · exact h.1 hl
        · exact hk hr

/-- The `media_map` dict has duplicate-free keys: each distinct url appears
exactly once, however many fields reference it. -/
theorem buildMap_keys_nodup (ps : List (String × String)) :
    ((buildMap ps).map Prod.fst).Nodup := by
  have h : ∀ (acc : List (String × String)), (acc.map Prod.fst).Nodup →
      ((ps.foldl (fun m p => dictInsert m p.1 p.2) acc).map Prod.fst).Nodup := by
    induction ps with
    | nil => intro acc ha; exact ha
    | cons p rest ih =>
        intro acc ha
        exact ih (dictInsert acc p.1 p.2) (dictInsert_keys_nodup p.1 p.2 acc ha)
  exact h [] (by simp)

/-- The urls downloaded form a sublist of the `media_map` keys. -/
theorem downloadLoop_fst_sublist (ok : String → Bool) :
    ∀ (m : List (String × String)) (files : List String),
      (downloadLoop ok m files).1.Sublist (m.map Prod.fst) := by
  intro m
  induction m with
  | nil => intro files; simp [downloadLoop]
  | cons p rest ih =>
      intro files
      cases p with
      | mk url fname =>
        by_cases hf : fname ∈ files
        · simp only [downloadLoop, hf, if_true]
          exact (ih files).cons url
        · simp only [downloadLoop, hf, if_false]
          exact (ih _).cons₂ url

/-- Each distinct url is downloaded at most once per `ensure_media_files`
invocation. -/
theorem downloadLoop_count_le_one (ok : String → Bool) (m : List (String × String))
    (files : List String) (hn : (m.map Prod.fst).Nodup) (url : String) :
    ((downloadLoop ok m files).1.count url) ≤ 1 := by
  have hd : (downloadLoop ok m files).1.Nodup :=
    hn.sublist (downloadLoop_fst_sublist ok m files)
  exact List.nodup_iff_count_le_one.mp hd url

theorem downloadLoop_mem_keys (ok : String → Bool) (m : List (String × String))
    (files : List String) {url : String}
    (h : url ∈ (downloadLoop ok m files).1) : url ∈ m.map Prod.fst :=
  (downloadLoop_fst_sublist ok m files).mem h

/-- A url whose derived local file already exists is never downloaded. -/
theorem downloadLoop_skip_existing (ok : String → Bool) :
    ∀ (m : List (String × String)) (files : List String) (url fname : String),
      (m.map Prod.fst).Nodup → (url, fname) ∈ m → fname ∈ files →
      url ∉ (downloadLoop ok m files).1 := by
  intro m
  induction m with
  | nil =>
      intro files url fname _ hm
      simp at hm
  | cons p rest ih =>
      intro files url fname hn hm hf
      cases p with
      | mk u₀ f₀ =>
        rw [List.map_cons, List.nodup_cons] at hn
        rcases List.mem_cons.mp hm with hhead | htail
        · have hu : u₀ = url := congrArg Prod.fst hhead.symm
          have hfn : f₀ = fname := congrArg Prod.snd hhead.symm
          subst hu
          subst hfn
          simp only [downloadLoop, hf, if_true]
          intro hmem
          exact hn.1 (downloadLoop_mem_keys ok rest files hmem)
        · have hne : url ≠ u₀ := by
            intro he
            subst he
            exact hn.1 (List.mem_map.mpr ⟨(url, fname), htail, rfl⟩)
          by_cases hf₀ : f₀ ∈ files
          · simp only [downloadLoop, hf₀, if_true]
            exact ih files url fname hn.2 htail hf
          · simp only [downloadLoop, hf₀, if_false]
            intro hmem
            rcases List.mem_cons.mp hmem with he | hmem₂
            · exact hne he
            · have hf₂ : fname ∈ (download_media (ok u₀) f₀ files).1 := by
                unfold download_media
                cases ok u₀ <;> simp [hf]
              exact ih _ url fname hn.2 htail hf₂ hmem₂

/-- A file present after the download loop was present before, or belongs to
a url whose download succeeded: a failed download never creates its file. -/
theorem downloadLoop_files_mem (ok : String → Bool) :
    ∀ (m : List (String × String)) (files : List String) (fname : String),
      fname ∈ (downloadLoop ok m files).2 →
      fname ∈ files ∨ ∃ url, (url, fname) ∈ m ∧ ok url = true := by
  intro m
  induction m with
  | nil =>
      intro files fname h
      exact Or.inl h
  | cons p rest ih =>
      intro files fname h
      cases p with
      | mk u₀ f₀ =>
        by_cases hf₀ : f₀ ∈ files
        · simp only [downloadLoop, hf₀, if_true] at h
          rcases ih files fname h with hl | ⟨url, hm, ho⟩
          · exact Or.inl hl
          · exact Or.inr ⟨url, List.mem_cons_of_mem _ hm, ho⟩
        · simp only [downloadLoop, hf₀, if_false] at h
          rcases ih _ fname h with hl | ⟨url, hm, ho⟩
          · unfold download_media at hl
            cases ho₀ : ok u₀ with
            | true =>
                rw [ho₀] at hl
                simp at hl
                rcases hl with hl₂ | hl₂
                · exact Or.inl hl₂
                · subst hl₂
                  exact Or.inr ⟨u₀, List.mem_cons_self _ _, ho₀⟩
            | false =>
                rw [ho₀] at hl
                simp at hl
                exact Or.inl hl
          · exact Or.inr ⟨url, List.mem_cons_of_mem _ hm, ho⟩

/-- Setting one key leaves every other key's binding unchanged. -/
theorem lookupKV_setKV_ne (k k₂ : String) (v : JValue) (h : k₂ ≠ k) :
    ∀ (l : List (String × JValue)),
      lookupKV (setKV l k v) k₂ = lookupKV l k₂ := by
  intro l
  induction l with
  | nil => simp [setKV, lookupKV, Ne.symm h]
  | cons kv rest ih =>
      obtain ⟨k₃, v₃⟩ := kv
      by_cases hk : k₃ = k
      · subst hk
        simp only [setKV, if_pos rfl]
        simp [lookupKV, Ne.symm h]
      · simp only [setKV, hk, if_false]
        by_cases hk₂ : k₃ = k₂ <;> simp [lookupKV, hk₂, ih]

/-- Setting a key makes lookup of that key return the new value. -/
theorem lookupKV_setKV_self (k : String) (v : JValue) :
    ∀ (l : List (String × JValue)), lookupKV (setKV l k v) k = some v := by
  intro l
  induction l with
  | nil => simp [setKV, lookupKV]
  | cons kv rest ih =>
      obtain ⟨k₃, v₃⟩ := kv
      by_cases hk : k₃ = k
      · subst hk
        simp only [setKV, if_pos rfl]
        simp [lookupKV]
      · simp only [setKV, hk, if_false]
        simp [lookupKV, hk, ih]

/-- Setting a key that is present keeps the keys and their order. -/
theorem setKV_keys (k : String) (v v₀ : JValue) :
    ∀ (l : List (String × JValue)), lookupKV l k = some v₀ →
      (setKV l k v).map Prod.fst = l.map Prod.fst := by
  intro l
  induction l with
  | nil =>
      intro h
      simp [lookupKV] at h
  | cons kv rest ih =>
      intro h
      obtain ⟨k₃, v₃⟩ := kv
      by_cases hk : k₃ = k
      · subst hk
        simp [setKV]
      · simp only [lookupKV, hk, if_false] at h
        simp only [setKV, hk, if_false, List.map_cons, ih h]

/-! ## Frame lemmas for the rewrite phase -/

/-- The logo / background rewrite leaves every other key unchanged. -/
theorem rewriteField_lookup_ne (kvs : List (String × JValue)) (field k : String)
    (h : k ≠ field) :
    lookupKV (rewriteField kvs field).1 k = lookupKV kvs k := by
  unfold rewriteField
  cases hl : lookupKV kvs field with
  | none => rfl
  | some v =>
      cases v with
      | str u =>
          by_cases hu : u = ""
          · simp [hu]
          · simp [hu, lookupKV_setKV_ne field k _ h kvs]
      | null => rfl
      | bool b => rfl
      | num n => rfl
      | arr xs => rfl
      | obj kvs₂ => rfl

/-- A truthy string field is rewritten to the derived local path. -/
theorem rewriteField_rewrites (kvs : List (String × JValue)) (field u : String)
    (hl : lookupKV kvs field = some (.str u)) (hu : u ≠ "") :
    lookupKV (rewriteField kvs field).1 field =
      some (.str (localPath (pathName u))) := by
  unfold rewriteField
  rw [hl]
  simp [hu, lookupKV_setKV_self]

/-- A falsy field (`if url:` fails) is left alone. -/
theorem rewriteField_id_falsy (kvs : List (String × JValue)) (field : String)
    (v : JValue) (hl : lookupKV kvs field = some v) (hv : isTruthy v = false) :
    (rewriteField kvs field).1 = kvs := by
  unfold rewriteField
  rw [hl]
  cases v with
  | str u =>
      have hu : u = "" := by simpa [isTruthy] using hv
      simp [hu]
  | null => rfl
  | bool b => rfl
  | num n => rfl
  | arr xs => rfl
  | obj kvs₂ => rfl

/-- The field rewrite keeps keys and their order. -/
theorem rewriteField_keys (kvs : List (String × JValue)) (field : String) :
    (rewriteField kvs field).1.map Prod.fst = kvs.map Prod.fst := by
  unfold rewriteField
  cases hl : lookupKV kvs field with
  | none => rfl
  | some v =>
      cases v with
      | str u =>
          by_cases hu : u = ""
          · simp [hu]
          · simp only [hu, if_false]
            exact setKV_keys field _ _ kvs hl
      | null => rfl
      | bool b => rfl
      | num n => rfl
      | arr xs => rfl
      | obj kvs₂ => rfl

/-- The side rewrite touches only `source`. -/
theorem rewriteSide_lookup_ne (skvs : List (String × JValue)) (k : String)
    (h : k ≠ "source") :
    lookupKV (rewriteSide skvs).1 k = lookupKV skvs k := by
  unfold rewriteSide
  cases ht : typeIsMedia skvs with
  | false => rfl
  | true =>
      simp only [if_true]
      cases hl : lookupKV skvs "source" with
      | none => rfl
      | some v =>
          cases v with
          | str u =>
              by_cases hu : u = ""
              · simp [hu]
              · simp [hu, lookupKV_setKV_ne "source" k _ h skvs]
          | null => rfl
          | bool b => rfl
          | num n => rfl
          | arr xs => rfl
          | obj kvs₂ => rfl

/-- A side whose type is not image/video is left alone entirely. -/
theorem rewriteSide_id_not_media (skvs : List (String × JValue))
    (ht : typeIsMedia skvs = false) : rewriteSide skvs = (skvs, []) := by
  unfold rewriteSide
  simp [ht]

/-- A truthy string `source` of an image/video side is rewritten to the
derived local path. -/
theorem rewriteSide_rewrites (skvs : List (String × JValue)) (u : String)
    (ht : typeIsMedia skvs = true) (hl : lookupKV skvs "source" = some (.str u))
    (hu : u ≠ "") :
    lookupKV (rewriteSide skvs).1 "source" =
      some (.str (localPath (pathName u))) := by
  unfold rewriteSide
  rw [ht, hl]
  simp [hu, lookupKV_setKV_self]

/-- A falsy `source` is left alone. -/
theorem rewriteSide_id_falsy (skvs : List (String × JValue)) (v : JValue)
    (hl : lookupKV skvs "source" = some v) (hv : isTruthy v = false) :
    (rewriteSide skvs).1 = skvs := by
  unfold rewriteSide
  cases ht : typeIsMedia skvs with
  | false => rfl
  | true =>
      simp only [if_true]
      rw [hl]
      cases v with
      | str u =>
          have hu : u = "" := by simpa [isTruthy] using hv
          simp [hu]
      | null => rfl
      | bool b => rfl
      | num n => rfl
      | arr xs => rfl
      | obj kvs₂ => rfl

/-- The side rewrite keeps keys and their order. -/
theorem rewriteSide_keys (skvs : List (String × JValue)) :
    (rewriteSide skvs).1.map Prod.fst = skvs.map Prod.fst := by
  unfold rewriteSide
  cases ht : typeIsMedia skvs with
  | false => rfl
  | true =>
      simp only [if_true]
      cases hl : lookupKV skvs "source" with
      | none => rfl
      | some v =>
          cases v with
          | str u =>
              by_cases hu : u = ""
              · simp [hu]
              · simp only [hu, if_false]
                exact setKV_keys "source" _ _ skvs hl
          | null => rfl
          | bool b => rfl
          | num n => rfl
          | arr xs => rfl
          | obj kvs₂ => rfl

/-- Rewriting one side of a slide leaves every other key unchanged. -/
theorem rewriteSlideSide_lookup_ne (slide : List (String × JValue))
    (side k : String) (h : k ≠ side) :
    lookupKV (rewriteSlideSide slide side).1 k = lookupKV slide k := by
  unfold rewriteSlideSide
  cases hl : lookupKV slide side with
  | none => rfl
  | some v =>
      cases v with
      | obj skvs => simp [lookupKV_setKV_ne side k _ h slide]
      | null => rfl
      | bool b => rfl
      | num n => rfl
      | str s => rfl
      | arr xs => rfl

/-- Rewriting a present object side replaces it by its side rewrite. -/
theorem rewriteSlideSide_obj (slide : List (String × JValue)) (side : String)
    (skvs : List (String × JValue))
    (hl : lookupKV slide side = some (.obj skvs)) :
    lookupKV (rewriteSlideSide slide side).1 side =
      some (.obj (rewriteSide skvs).1) := by
  unfold rewriteSlideSide
  rw [hl]
  simp [lookupKV_setKV_self]

/-- The slide-side rewrite keeps keys and their order. -/
theorem rewriteSlideSide_keys (slide : List (String × JValue)) (side : String) :
    (rewriteSlideSide slide side).1.map Prod.fst = slide.map Prod.fst := by
  unfold rewriteSlideSide
  cases hl : lookupKV slide side with
  | none => rfl
  | some v =>
      cases v with
      | obj skvs => exact setKV_keys side _ _ slide hl
      | null => rfl
      | bool b => rfl
      | num n => rfl
      | str s => rfl
      | arr xs => rfl

/-- The slide rewrite touches only `left` and `right`. -/
theorem rewriteSlide_lookup_ne (kvs : List (String × JValue)) (k : String)
    (h₁ : k ≠ "left") (h₂ : k ≠ "right") :
    dictGet (rewriteSlide (.obj kvs)).1 k = lookupKV kvs k := by
  simp only [rewriteSlide, dictGet]
  rw [rewriteSlideSide_lookup_ne _ "right" k h₂,
    rewriteSlideSide_lookup_ne _ "left" k h₁]

/-- The slide rewrite maps a present `left` object to its side rewrite. -/
theorem rewriteSlide_left (kvs skvs : List (String × JValue))
    (hl : lookupKV kvs "left" = some (.obj skvs)) :
    dictGet (rewriteSlide (.obj kvs)).1 "left" =
      some (.obj (rewriteSide skvs).1) := by
  simp only [rewriteSlide, dictGet]
  rw [rewriteSlideSide_lookup_ne _ "right" "left" (by decide)]
  exact rewriteSlideSide_obj kvs "left" skvs hl

/-- The slide rewrite maps a present `right` object to its side rewrite. -/
theorem rewriteSlide_right (kvs skvs : List (String × JValue))
    (hl : lookupKV kvs "right" = some (.obj skvs)) :
    dictGet (rewriteSlide (.obj kvs)).1 "right" =
      some (.obj (rewriteSide skvs).1) := by
  simp only [rewriteSlide, dictGet]
  have h₂ : lookupKV (rewriteSlideSide kvs "left").1 "right" = some (.obj skvs) := by
    rw [rewriteSlideSide_lookup_ne kvs "left" "right" (by decide)]
    exact hl
  exact rewriteSlideSide_obj _ "right" skvs h₂

/-- The slide rewrite keeps the slide's keys and their order. -/
theorem rewriteSlide_keys (kvs : List (String × JValue)) :
    ∃ kvs₂, (rewriteSlide (.obj kvs)).1 = .obj kvs₂ ∧
      kvs₂.map Prod.fst = kvs.map Prod.fst := by
  refine ⟨_, rfl, ?_⟩
  rw [rewriteSlideSide_keys, rewriteSlideSide_keys]

/-- For any key other than `slides`, the collect phase's result looks up as
after the two top-level field rewrites. -/
theorem collectRewrite_obj_lookup (kvs : List (String × JValue)) (k : String)
    (h₃ : k ≠ "slides") :
    dictGet (collectRewrite (.obj kvs)).1 k =
      lookupKV (rewriteField (rewriteField kvs "logo").1 "background_image").1 k := by
  simp only [collectRewrite, dictGet]
  cases hsl : lookupKV (rewriteField (rewriteField kvs "logo").1
      "background_image").1 "slides" with
  | none => rfl
  | some v =>
      cases v with
      | arr xs => simp [lookupKV_setKV_ne "slides" k _ h₃]
      | null => rfl
      | bool b => rfl
      | num n => rfl
      | str s => rfl
      | obj kvs₂ => rfl

/-- The collect phase leaves every key other than the media-bearing ones
unchanged. -/
theorem collectRewrite_lookup_ne (cfg : JValue) (k : String)
    (h₁ : k ≠ "logo") (h₂ : k ≠ "background_image") (h₃ : k ≠ "slides") :
    dictGet (collectRewrite cfg).1 k = dictGet cfg k := by
  cases cfg with
  | obj kvs =>
      rw [collectRewrite_obj_lookup kvs k h₃,
        rewriteField_lookup_ne _ "background_image" k h₂,
        rewriteField_lookup_ne _ "logo" k h₁]
      rfl
  | null => rfl
  | bool b => rfl
  | num n => rfl
  | str s => rfl
  | arr xs => rfl

/-- A truthy string `logo` is rewritten to its local path. -/
theorem collectRewrite_logo_rewrites (kvs : List (String × JValue)) (u : String)
    (hl : lookupKV kvs "logo" = some (.str u)) (hu : u ≠ "") :
    dictGet (collectRewrite (.obj kvs)).1 "logo" =
      some (.str (localPath (pathName u))) := by
  rw [collectRewrite_obj_lookup kvs "logo" (by decide),
    rewriteField_lookup_ne _ "background_image" "logo" (by decide)]
  exact rewriteField_rewrites kvs "logo" u hl hu

/-- A falsy `logo` is preserved. -/
theorem collectRewrite_logo_falsy (kvs : List (String × JValue)) (v : JValue)
    (hl : lookupKV kvs "logo" = some v) (hv : isTruthy v = false) :
    dictGet (collectRewrite (.obj kvs)).1 "logo" = some v := by
  rw [collectRewrite_obj_lookup kvs "logo" (by decide),
    rewriteField_lookup_ne _ "background_image" "logo" (by decide),
    rewriteField_id_falsy kvs "logo" v hl hv]
  exact hl

/-- A truthy string `background_image` is rewritten to its local path. -/
theorem collectRewrite_bg_rewrites (kvs : List (String × JValue)) (u : String)
    (hl : lookupKV kvs "background_image" = some (.str u)) (hu : u ≠ "") :
    dictGet (collectRewrite (.obj kvs)).1 "background_image" =
      some (.str (localPath (pathName u))) := by
  rw [collectRewrite_obj_lookup kvs "background_image" (by decide)]
  have hl₂ : lookupKV (rewriteField kvs "logo").1 "background_image" =
      some (.str u) := by
    rw [rewriteField_lookup_ne _ "logo" "background_image" (by decide)]
    exact hl
  exact rewriteField_rewrites _ "background_image" u hl₂ hu

/-- A falsy `background_image` is preserved. -/
theorem collectRewrite_bg_falsy (kvs : List (String × JValue)) (v : JValue)
    (hl : lookupKV kvs "background_image" = some v) (hv : isTruthy v = false) :
    dictGet (collectRewrite (.obj kvs)).1 "background_image" = some v := by
  rw [collectRewrite_obj_lookup kvs "background_image" (by decide)]
  have hl₂ : lookupKV (rewriteField kvs "logo").1 "background_image" = some v := by
    rw [rewriteField_lookup_ne _ "logo" "background_image" (by decide)]
    exact hl
  rw [rewriteField_id_falsy _ "background_image" v hl₂ hv]
  exact hl₂

/-- A present slide list is mapped slide-by-slide through the slide
rewrite. -/
theorem collectRewrite_slides_map (kvs : List (String × JValue))
    (xs : List JValue) (hl : lookupKV kvs "slides" = some (.arr xs)) :
    dictGet (collectRewrite (.obj kvs)).1 "slides" =
      some (.arr (xs.map (fun s => (rewriteSlide s).1))) := by
  have hb : lookupKV (rewriteField (rewriteField kvs "logo").1
      "background_image").1 "slides" = some (.arr xs) := by
    rw [rewriteField_lookup_ne _ "background_image" "slides" (by decide),
      rewriteField_lookup_ne _ "logo" "slides" (by decide)]
    exact hl
  simp only [collectRewrite, dictGet]
  rw [hb]
  simp only [lookupKV_setKV_self]
  rw [List.map_map]
  rfl

/-- The collect phase returns an object with the same keys in the same
order. -/
theorem collectRewrite_keys (kvs : List (String × JValue)) :
    ∃ kvs₂, (collectRewrite (.obj kvs)).1 = .obj kvs₂ ∧
      kvs₂.map Prod.fst = kvs.map Prod.fst := by
  refine ⟨_, rfl, ?_⟩
  cases hsl : lookupKV (rewriteField (rewriteField kvs "logo").1
      "background_image").1 "slides" with
  | none =>
      simp only [hsl]
      rw [rewriteField_keys, rewriteField_keys]
  | some v =>
      cases v with
      | arr xs =>
          simp only [hsl]
          rw [setKV_keys "slides" _ _ _ hsl, rewriteField_keys, rewriteField_keys]
      | null =>
          simp only [hsl]
          rw [rewriteField_keys, rewriteField_keys]
      | bool b =>
          simp only [hsl]
          rw [rewriteField_keys, rewriteField_keys]
      | num n =>
          simp only [hsl]
          rw [rewriteField_keys, rewriteField_keys]
      | str s =>
          simp only [hsl]
          rw [rewriteField_keys, rewriteField_keys]
      | obj kvs₃ =>
          simp only [hsl]
          rw [rewriteField_keys, rewriteField_keys]

/-! ## Claims -/

/-- C1: the claim states that when the fetched document's hash differs from
the stored hash, the persisted ContentHash equals `hash(D)` for the fetched
document `D` itself.  The source resolves media in place before saving
(line 454 rebinds `config` to the media-resolved document, line 455 saves it),
so the persisted hash is the hash of the media-resolved document; for the
first run with `D = {"logo": "http://h/x/logo.png"}` the persisted hash is
the hash of `{"logo": "cache/media/logo.png"}`, which differs from
`hash(D)`.  This defeats the hash comparison on every later run. -/
theorem C1_reconcile_stores_resolved_hash :
    (reconcile (some (.obj [("logo", .str "http://h/x/logo.png")]))
        (fun _ => true) ⟨none, none, []⟩).2.1.hashFile =
      some (hash_config (.obj [("logo", .str "cache/media/logo.png")])) ∧
    some (hash_config (JValue.obj [("logo", .str "cache/media/logo.png")])) ≠
      some (hash_config (.obj [("logo", .str "http://h/x/logo.png")])) := by
  exact ⟨rfl, by decide⟩

/-- C2: the claim states that persisting a CacheEntry is atomic — no
execution leaves the document written but the hash not.  The source writes
`config.json` and then `config_hash.txt` in two separate sequential
`with open` blocks with no temp-file-and-rename, so an I/O error during the
second write leaves the new document with the old hash on disk. -/
theorem C2_save_not_atomic :
    (save_config_cache (.obj [("a", .num 1)]) .hashWriteFails
        ⟨some (.obj []), some (hash_config (.obj [])), []⟩).1.cacheFile =
      some (.obj [("a", .num 1)]) ∧
    (save_config_cache (.obj [("a", .num 1)]) .hashWriteFails
        ⟨some (.obj []), some (hash_config (.obj [])), []⟩).1.hashFile =
      some (hash_config (.obj [])) ∧
    hash_config (JValue.obj []) ≠ hash_config (.obj [("a", .num 1)]) := by
  exact ⟨rfl, rfl, by decide⟩

/-- C3: with `Unavailable` input, reconcile returns the cached document with
no media download when a CacheEntry holds a (truthy) document, and terminates
with exit status 1 and a diagnostic message when no CacheEntry exists. -/
theorem C3_unavailable_uses_cache_or_exits (ok : String → Bool) (st : CacheState) :
    (∀ d, load_config_cache st = some d → isTruthy d = true →
      reconcile none ok st = (Outcome.proceed (some d), st, [])) ∧
    (load_config_cache st = none →
      reconcile none ok st = (Outcome.fatal 1 noCacheMsg, st, []) ∧ noCacheMsg ≠ "") := by
  constructor
  · intro d hd ht
    simp [reconcile, fallbackToCache, hd, ht]
  · intro hd
    refine ⟨?_, by decide⟩
    simp [reconcile, fallbackToCache, hd]

/-- Witness for C3 at concrete inputs: a one-entry cache and an empty cache. -/
theorem C3_unavailable_witness :
    reconcile none (fun _ => true) ⟨some (.obj [("a", .num 1)]), none, []⟩ =
      (Outcome.proceed (some (.obj [("a", .num 1)])),
        ⟨some (.obj [("a", .num 1)]), none, []⟩, []) ∧
    reconcile none (fun _ => true) ⟨none, none, []⟩ =
      (Outcome.fatal 1 noCacheMsg, ⟨none, none, []⟩, []) :=
  ⟨(C3_unavailable_uses_cache_or_exits (fun _ => true)
      ⟨some (.obj [("a", .num 1)]), none, []⟩).1 _ rfl rfl,
   ((C3_unavailable_uses_cache_or_exits (fun _ => true)
      ⟨none, none, []⟩).2 rfl).1⟩

/-- C4: when the fetched (truthy) document's hash equals the stored hash,
reconcile performs no media download, leaves the cache untouched, and returns
exactly the document loaded from the persisted CacheEntry. -/
theorem C4_unchanged_returns_cached (ok : String → Bool) (st : CacheState)
    (d : JValue) (ht : isTruthy d = true)
    (hh : st.hashFile = some (hash_config d)) :
    reconcile (some d) ok st = (Outcome.proceed (load_config_cache st), st, []) := by
  simp [reconcile, hh, ht]

/-- Witness for C4: cache holding `{"a": 1}` with its stored hash. -/
theorem C4_unchanged_witness :
    reconcile (some (.obj [("a", .num 1)])) (fun _ => true)
        ⟨some (.obj [("a", .num 1)]),
         some (hash_config (.obj [("a", .num 1)])), []⟩ =
      (Outcome.proceed (some (.obj [("a", .num 1)])),
        ⟨some (.obj [("a", .num 1)]),
         some (hash_config (.obj [("a", .num 1)])), []⟩, []) :=
  C4_unchanged_returns_cached (fun _ => true) _ _ rfl rfl

/-- C5: when the stored hash matches the fetched document but `config.json`
is absent, reconcile hands `None` to the rest of `main` (neither a document
nor the Fatal exit), and settings extraction then raises an unhandled
AttributeError. -/
theorem C5_hash_present_file_absent (ok : String → Bool) (st : CacheState)
    (d : JValue) (ht : isTruthy d = true)
    (hh : st.hashFile = some (hash_config d)) (hc : st.cacheFile = none) :
    reconcile (some d) ok st = (Outcome.proceed none, st, []) ∧
    extract_settings none =
      Except.error "AttributeError: NoneType object has no attribute get" := by
  refine ⟨?_, rfl⟩
  simp [reconcile, load_config_cache, hh, ht, hc]

/-- Witness for C5: hash file present for `{"a": 1}`, cache file absent. -/
theorem C5_hash_present_file_absent_witness :
    reconcile (some (.obj [("a", .num 1)])) (fun _ => true)
        ⟨none, some (hash_config (.obj [("a", .num 1)])), []⟩ =
      (Outcome.proceed none,
        ⟨none, some (hash_config (.obj [("a", .num 1)])), []⟩, []) ∧
    extract_settings none =
      Except.error "AttributeError: NoneType object has no attribute get" :=
  C5_hash_present_file_absent (fun _ => true) _ _ rfl rfl rfl

/-- C8 counterexample: the claim states that every non-2xx response yields
Unavailable, but `raise_for_status` raises only for 4xx/5xx, so a 301
response whose body parses as JSON is returned as a document. -/
theorem C8_non2xx_counterexample :
    get_config_from_server (.resp 301 (some (.obj [("a", .num 1)]))) =
      some (.obj [("a", .num 1)]) := rfl

/-- C8 (amended): fetch returns Unavailable on any transport failure, any
4xx/5xx response, and any malformed body; a response with a well-formed JSON
body and a status outside 400..599 (in particular any 2xx) is returned as
the parsed document, never an exception. -/
theorem C8_fetch_error_handling :
    (get_config_from_server .exn = none) ∧
    (∀ s b, 400 ≤ s → s < 600 → get_config_from_server (.resp s b) = none) ∧
    (∀ s, get_config_from_server (.resp s none) = none) ∧
    (∀ s d, ¬ (400 ≤ s ∧ s < 600) →
      get_config_from_server (.resp s (some d)) = some d) := by
  refine ⟨rfl, ?_, ?_, ?_⟩
  · intro s b h₁ h₂
    simp [get_config_from_server, h₁, h₂]
  · intro s
    by_cases h : 400 ≤ s ∧ s < 600 <;> simp [get_config_from_server, h]
  · intro s d h
    simp [get_config_from_server, h]

/-- Witness for C8 at concrete inputs: a 404 response and a 200 response. -/
theorem C8_fetch_error_handling_witness :
    get_config_from_server (.resp 404 (some (.obj []))) = none ∧
    get_config_from_server (.resp 200 (some (.obj []))) = some (.obj []) :=
  ⟨C8_fetch_error_handling.2.1 404 _ (by decide) (by decide),
   C8_fetch_error_handling.2.2.2 200 _ (by decide)⟩

/-- C6: two well-formed documents that are deeply equal under
key-order-insensitive comparison have the same ContentHash. -/
theorem C6_hash_key_order_insensitive (a b : JValue)
    (hwa : wfJ a = true) (_hwb : wfJ b = true) (he : jequiv a b = true) :
    hash_config a = hash_config b :=
  serialize_eq_of_jequiv a b hwa he

/-- Witness for C6: nested documents differing only in key order. -/
theorem C6_hash_key_order_insensitive_witness :
    wfJ (.obj [("b", .obj [("y", .num 2), ("x", .num 1)]),
               ("a", .arr [.num 1, .str "s"])]) = true ∧
    jequiv (.obj [("b", .obj [("y", .num 2), ("x", .num 1)]),
                  ("a", .arr [.num 1, .str "s"])])
           (.obj [("a", .arr [.num 1, .str "s"]),
                  ("b", .obj [("x", .num 1), ("y", .num 2)])]) = true ∧
    hash_config (.obj [("b", .obj [("y", .num 2), ("x", .num 1)]),
                       ("a", .arr [.num 1, .str "s"])]) =
      hash_config (.obj [("a", .arr [.num 1, .str "s"]),
                         ("b", .obj [("x", .num 1), ("y", .num 2)])]) :=
  ⟨by decide, by decide,
   C6_hash_key_order_insensitive _ _ (by decide) (by decide) (by decide)⟩

/-- C7: media resolution performs at most one download per distinct URL; a
URL whose derived file already exists is not downloaded; a document with the
same URL in `logo` and a slide's `left.source` triggers exactly one download
for it, whatever the download outcomes. -/
theorem C7_one_download_per_url (cfg : JValue) (ok : String → Bool)
    (files : List String) :
    (∀ url, ((ensure_media_files cfg ok files).2.1).count url ≤ 1) ∧
    (∀ url fname, (url, fname) ∈ buildMap (collectRewrite cfg).2 →
      fname ∈ files → url ∉ (ensure_media_files cfg ok files).2.1) ∧
    (∀ g : String → Bool,
      (ensure_media_files (JValue.obj
          [("logo", .str "http://h/x/logo.png"),
           ("slides", .arr [.obj [("left", .obj
              [("type", .str "image"),
               ("source", .str "http://h/x/logo.png")])]])]) g []).2.1 =
        ["http://h/x/logo.png"]) := by
  refine ⟨?_, ?_, ?_⟩
  · intro url
    exact downloadLoop_count_le_one ok _ files (buildMap_keys_nodup _) url
  · intro url fname hm hf
    exact downloadLoop_skip_existing ok _ files url fname
      (buildMap_keys_nodup _) hm hf
  · intro g
    rfl

/-- Witness for C7: a logo url counted at most once, skipped when its file
exists, and the dedup document downloading exactly once with failures. -/
theorem C7_one_download_per_url_witness :
    ((ensure_media_files (JValue.obj [("logo", .str "http://h/x/logo.png")])
        (fun _ => true) ["logo.png"]).2.1).count "http://h/x/logo.png" ≤ 1 ∧
    "http://h/x/logo.png" ∉
      (ensure_media_files (JValue.obj [("logo", .str "http://h/x/logo.png")])
        (fun _ => true) ["logo.png"]).2.1 ∧
    (ensure_media_files (JValue.obj
        [("logo", .str "http://h/x/logo.png"),
         ("slides", .arr [.obj [("left", .obj
            [("type", .str "image"),
             ("source", .str "http://h/x/logo.png")])]])])
        (fun _ => false) []).2.1 = ["http://h/x/logo.png"] :=
  ⟨(C7_one_download_per_url (JValue.obj [("logo", .str "http://h/x/logo.png")])
      (fun _ => true) ["logo.png"]).1 "http://h/x/logo.png",
   (C7_one_download_per_url (JValue.obj [("logo", .str "http://h/x/logo.png")])
      (fun _ => true) ["logo.png"]).2.1 "http://h/x/logo.png" "logo.png"
      (by decide) (by decide),
   (C7_one_download_per_url (JValue.obj []) (fun _ => true) []).2.2
      (fun _ => false)⟩

/-- C9: for a document of the shapes the source handles, download outcomes
never change the returned document (it is the rewrite-phase result, with
every media field already pointing at its local path), and a failed download
leaves no file behind; `download_media` itself catches every exception, so
none propagates. -/
theorem C9_download_failures_nonfatal (cfg : JValue) (ok ok₂ : String → Bool)
    (files : List String) (_hwf : mediaWF cfg = true) :
    (ensure_media_files cfg ok files).1 = (collectRewrite cfg).1 ∧
    (ensure_media_files cfg ok files).1 = (ensure_media_files cfg ok₂ files).1 ∧
    (∀ fname, fname ∈ (ensure_media_files cfg ok files).2.2 →
      fname ∈ files ∨
        ∃ url, (url, fname) ∈ buildMap (collectRewrite cfg).2 ∧ ok url = true) := by
  refine ⟨rfl, rfl, ?_⟩
  intro fname h
  exact downloadLoop_files_mem ok _ files fname h

/-- Witness for C9: an all-failing run returns the same document as an
all-succeeding one. -/
theorem C9_download_failures_nonfatal_witness :
    (ensure_media_files (JValue.obj [("logo", .str "http://h/x/logo.png")])
        (fun _ => false) []).1 =
      (collectRewrite (JValue.obj [("logo", .str "http://h/x/logo.png")])).1 ∧
    (ensure_media_files (JValue.obj [("logo", .str "http://h/x/logo.png")])
        (fun _ => false) []).1 =
      (ensure_media_files (JValue.obj [("logo", .str "http://h/x/logo.png")])
        (fun _ => true) []).1 :=
  ⟨(C9_download_failures_nonfatal
      (JValue.obj [("logo", .str "http://h/x/logo.png")])
      (fun _ => false) (fun _ => true) [] (by decide)).1,
   (C9_download_failures_nonfatal
      (JValue.obj [("logo", .str "http://h/x/logo.png")])
      (fun _ => false) (fun _ => true) [] (by decide)).2.1⟩

/-- C10: the document returned by media resolution is identical in shape to
the input: an object with the same keys in the same order; every key other
than `logo`, `background_image` and `slides` is unchanged; slides change
only in `left`/`right`, sides only in `source`, and only when the type is
image/video and the value is a truthy string, in which case the field is
rewritten to the derived local path. -/
theorem C10_only_media_fields_rewritten :
    (∀ cfg k, k ≠ "logo" → k ≠ "background_image" → k ≠ "slides" →
      dictGet (collectRewrite cfg).1 k = dictGet cfg k) ∧
    (∀ kvs, ∃ kvs₂, (collectRewrite (JValue.obj kvs)).1 = JValue.obj kvs₂ ∧
      kvs₂.map Prod.fst = kvs.map Prod.fst) ∧
    (∀ kvs u, lookupKV kvs "logo" = some (.str u) → u ≠ "" →
      dictGet (collectRewrite (JValue.obj kvs)).1 "logo" =
        some (.str (localPath (pathName u)))) ∧
    (∀ kvs v, lookupKV kvs "logo" = some v → isTruthy v = false →
      dictGet (collectRewrite (JValue.obj kvs)).1 "logo" = some v) ∧
    (∀ kvs u, lookupKV kvs "background_image" = some (.str u) → u ≠ "" →
      dictGet (collectRewrite (JValue.obj kvs)).1 "background_image" =
        some (.str (localPath (pathName u)))) ∧
    (∀ kvs v, lookupKV kvs "background_image" = some v → isTruthy v = false →
      dictGet (collectRewrite (JValue.obj kvs)).1 "background_image" = some v) ∧
    (∀ kvs xs, lookupKV kvs "slides" = some (.arr xs) →
      dictGet (collectRewrite (JValue.obj kvs)).1 "slides" =
        some (.arr (xs.map (fun s => (rewriteSlide s).1)))) ∧
    (∀ kvs k, k ≠ "left" → k ≠ "right" →
      dictGet (rewriteSlide (JValue.obj kvs)).1 k = lookupKV kvs k) ∧
    (∀ kvs skvs, lookupKV kvs "left" = some (.obj skvs) →
      dictGet (rewriteSlide (JValue.obj kvs)).1 "left" =
        some (.obj (rewriteSide skvs).1)) ∧
    (∀ kvs skvs, lookupKV kvs "right" = some (.obj skvs) →
      dictGet (rewriteSlide (JValue.obj kvs)).1 "right" =
        some (.obj (rewriteSide skvs).1)) ∧
    (∀ skvs k, k ≠ "source" →
      lookupKV (rewriteSide skvs).1 k = lookupKV skvs k) ∧
    (∀ skvs, typeIsMedia skvs = false → rewriteSide skvs = (skvs, [])) ∧
    (∀ skvs u, typeIsMedia skvs = true →
      lookupKV skvs "source" = some (.str u) → u ≠ "" →
      lookupKV (rewriteSide skvs).1 "source" =
        some (.str (localPath (pathName u)))) ∧
    (∀ skvs v, lookupKV skvs "source" = some v → isTruthy v = false →
      (rewriteSide skvs).1 = skvs) :=
  ⟨collectRewrite_lookup_ne, collectRewrite_keys,
   collectRewrite_logo_rewrites, collectRewrite_logo_falsy,
   collectRewrite_bg_rewrites, collectRewrite_bg_falsy,
   collectRewrite_slides_map, rewriteSlide_lookup_ne,
   rewriteSlide_left, rewriteSlide_right,
   rewriteSide_lookup_ne, rewriteSide_id_not_media,
   rewriteSide_rewrites, rewriteSide_id_falsy⟩

/-- Witness for C10 on a concrete document: non-media field preserved,
media fields rewritten. -/
theorem C10_only_media_fields_rewritten_witness :
    dictGet (collectRewrite (JValue.obj
      [("title", .str "Hi"), ("logo", .str "http://h/x/logo.png")])).1 "title" =
        some (.str "Hi") ∧
    dictGet (collectRewrite (JValue.obj
      [("title", .str "Hi"), ("logo", .str "http://h/x/logo.png")])).1 "logo" =
        some (.str "cache/media/logo.png") ∧
    lookupKV (rewriteSide
      [("type", .str "image"), ("source", .str "http://h/a/img.png")]).1
        "source" = some (.str "cache/media/img.png") :=
  ⟨C10_only_media_fields_rewritten.1 (JValue.obj
      [("title", .str "Hi"), ("logo", .str "http://h/x/logo.png")]) "title"
      (by decide) (by decide) (by decide),
   C10_only_media_fields_rewritten.2.2.1
      [("title", .str "Hi"), ("logo", .str "http://h/x/logo.png")]
      "http://h/x/logo.png" rfl (by decide),
   C10_only_media_fields_rewritten.2.2.2.2.2.2.2.2.2.2.2.2.1
      [("type", .str "image"), ("source", .str "http://h/a/img.png")]
      "http://h/a/img.png" (by decide) rfl (by decide)⟩
